import Mathlib

/-!
Shallow embedding of the Siri-Ferrugem credential-management core.

This file embeds the credential validation and hashing pipeline of the
repository (src/Siri/src/auth.rs, src/Siri/src/db.rs, src/Siri/src/error.rs)
into Lean 4 and proves the spec claims about it.

Modelling decisions:
* The SQLite `users` table is a list of records (`Store`); `SELECT ... WHERE
  username = ?` is `List.find?`, the UNIQUE constraint on `username` makes a
  raw `INSERT` fail with a constraint violation when the username is present,
  and `UPDATE ... WHERE username = ?` rewrites every matching row.
* Argon2 hashing is idealized as a collision-free digest `argonDigest` of the
  salt and the password; the random salt drawn from `OsRng` is passed as an
  explicit `salt : Nat` parameter.  A stored `password_hash` string is either
  a well-formed PHC string (`HashStr.phc`, carrying the salt and digest that
  `PasswordHash::new` parses out of it) or a malformed string
  (`HashStr.malformed`, carrying the parse-error text).
* Rust `str::len` is the UTF-8 byte length, embedded as `String.utf8ByteSize`.
* The service operations additionally return a ghost `OpTrace` counting the
  hashing-engine invocations and store accesses they perform, so that the
  timing-countermeasure and fail-fast claims can be stated.
* String literals from the source keep their text except that the ASCII
  quote characters around the username in the duplicate-user message are
  omitted.
-/

/-- Error taxonomy of the program, from src/Siri/src/error.rs (`AuthError`).
The `Database` payload is the store-level error, the `Input` payload stands
for the `std::io::Error` text. -/
inductive AuthError where
  | Database (e : Nat)
  | PasswordHashing (msg : String)
  | Validation (msg : String)
  | Input (msg : String)
  | NotFound (msg : String)
  | PermissionDenied (msg : String)
deriving DecidableEq, Repr

deriving instance DecidableEq for Except

/-- From src/Siri/src/auth.rs: `PasswordConfig`. -/
structure PasswordConfig where
  min_length : Nat
  require_digit : Bool
  require_uppercase : Bool
  require_lowercase : Bool
  require_special : Bool
deriving DecidableEq, Repr

/-- From src/Siri/src/auth.rs: `impl Default for PasswordConfig`. -/
def PasswordConfig.default : PasswordConfig :=
  { min_length := 8
    require_digit := true
    require_uppercase := false
    require_lowercase := false
    require_special := false }

def msgEmptyUsername : String := "Nome de usuário não pode estar vazio"

def msgEmptyPassword : String := "Senha não pode estar vazia"

def msgTooShort (n : Nat) : String :=
  "A senha deve ter pelo menos " ++ toString n ++ " caracteres"

def msgNeedDigit : String := "A senha deve conter pelo menos um número"

def msgNeedUppercase : String := "A senha deve conter pelo menos uma letra maiúscula"

def msgNeedLowercase : String := "A senha deve conter pelo menos uma letra minúscula"

def msgNeedSpecial : String := "A senha deve conter pelo menos um caractere especial"

/-- The duplicate-username message `Usuário '{}' já existe` (quote characters
around the username omitted). -/
def msgUserExists (u : String) : String := "Usuário " ++ u ++ " já existe"

def msgWrongCurrent : String := "Senha atual incorreta"

/-- From src/Siri/src/auth.rs lines 33-43: `validate_credentials`. -/
def validate_credentials (username password : String) : Except AuthError Unit :=
  if username.isEmpty then
    .error (.Validation msgEmptyUsername)
  else if password.isEmpty then
    .error (.Validation msgEmptyPassword)
  else
    .ok ()

/-- The fixed special-character set of src/Siri/src/auth.rs line 65
(`!@#$%^&*()_+-=[]\x7b\x7d|;:,.<>?`). -/
def specialChars : String := "!@#$%^&*()_+-=[]\x7b\x7d|;:,.<>?"

/-- From src/Siri/src/auth.rs lines 46-70: `validate_password_strength`.
Rust `password.len()` is the UTF-8 byte length; `is_ascii_digit`,
`is_ascii_uppercase` and `is_ascii_lowercase` are `Char.isDigit`,
`Char.isUpper` and `Char.isLower` (all three are ASCII-range checks). -/
def validate_password_strength (password : String) (config : PasswordConfig) :
    Except AuthError Unit :=
  if password.utf8ByteSize < config.min_length then
    .error (.Validation (msgTooShort config.min_length))
  else if config.require_digit && !password.data.any (fun c => c.isDigit) then
    .error (.Validation msgNeedDigit)
  else if config.require_uppercase && !password.data.any (fun c => c.isUpper) then
    .error (.Validation msgNeedUppercase)
  else if config.require_lowercase && !password.data.any (fun c => c.isLower) then
    .error (.Validation msgNeedLowercase)
  else if config.require_special && !password.data.any (fun c => specialChars.data.contains c) then
    .error (.Validation msgNeedSpecial)
  else
    .ok ()

/-- A stored `password_hash` column value.  A well-formed value is the PHC
string `hash_password` writes (carrying the salt and the digest that
`PasswordHash::new` parses back out of it); any other string is malformed and
`PasswordHash::new` fails on it with the carried error text. -/
inductive HashStr where
  | phc (salt : Nat) (digest : String)
  | malformed (err : String)
deriving DecidableEq, Repr

/-- Idealized Argon2 digest of a salt and a password.  The model is
collision-free: recomputing the digest with the embedded salt matches the
stored digest exactly when the passwords are equal. -/
def argonDigest (salt : Nat) (password : String) : String :=
  toString salt ++ "$argon2$" ++ password

/-- From src/Siri/src/auth.rs lines 72-83: `hash_password`.  The random salt
from `OsRng` is the explicit `salt` argument; the catastrophic-RNG failure arm
is not modelled (the spec treats it as fatal). -/
def hash_password (salt : Nat) (password : String) : HashStr :=
  .phc salt (argonDigest salt password)

/-- From src/Siri/src/auth.rs lines 85-92: `verify_password`.  Parsing a
malformed stored hash fails with `AuthError::PasswordHashing`; on a
well-formed hash Argon2 recomputes the digest with the embedded salt and
compares. -/
def verify_password (password : String) (stored_hash : HashStr) :
    Except AuthError Bool :=
  match stored_hash with
  | .malformed e => .error (.PasswordHashing ("Erro ao analisar hash: " ++ e))
  | .phc salt digest => .ok (argonDigest salt password == digest)

/-- One row of the `users` table (id and created_at are never read by the
core operations and are omitted). -/
structure UserRecord where
  username : String
  password_hash : HashStr
deriving DecidableEq, Repr

/-- The `users` table: one row per insertion, in insertion order. -/
structure Store where
  users : List UserRecord
deriving DecidableEq, Repr

/-- `SELECT password_hash FROM users WHERE username = ?1` with `.optional()`:
the first row whose username matches, if any. -/
def Store.findUser (s : Store) (u : String) : Option UserRecord :=
  s.users.find? (fun r => r.username == u)

/-- `SELECT COUNT(*) > 0 FROM users WHERE username = ?1`. -/
def Store.userExists (s : Store) (u : String) : Bool :=
  (s.findUser u).isSome

/-- Raw `INSERT INTO users (username, password_hash) VALUES (?1, ?2)` under
the UNIQUE constraint on `username`: appends a row, or fails with SQLite
error code `ConstraintViolation` (modelled as the store-error payload
`sqlConstraintViolation`) when a row with this username already exists. -/
def sqlConstraintViolation : Nat := 19

def Store.insertExec (s : Store) (u : String) (h : HashStr) :
    Except Nat Store :=
  if s.userExists u then
    .error sqlConstraintViolation
  else
    .ok ⟨s.users ++ [⟨u, h⟩]⟩

/-- `UPDATE users SET password_hash = ?1 WHERE username = ?2`: rewrites the
hash of every row whose username matches. -/
def Store.updateHash (s : Store) (u : String) (h : HashStr) : Store :=
  ⟨s.users.map (fun r => if r.username == u then { r with password_hash := h } else r)⟩

/-- From src/Siri/src/db.rs lines 63-76: `Database::insert_user` — the store
adapter maps the SQLite constraint violation to `AuthError::Validation`
("already exists") and wraps any other store error as `AuthError::Database`. -/
def Database.insert_user (s : Store) (username : String) (password_hash : HashStr) :
    Except AuthError Store :=
  match s.insertExec username password_hash with
  | .ok s2 => .ok s2
  | .error e =>
    if e = sqlConstraintViolation then
      .error (.Validation (msgUserExists username))
    else
      .error (.Database e)

/-- Ghost instrumentation: how many hashing-engine computations
(`hash_password`, `dummy_hash_operation`, or an actual Argon2 verification
inside `verify_password`) and how many store accesses an operation performs. -/
structure OpTrace where
  hashOps : Nat
  storeOps : Nat
deriving DecidableEq, Repr

/-- From src/Siri/src/auth.rs lines 134-163: `login_user`, instrumented with
an `OpTrace`.  `dummy_hash_operation` (lines 95-99) is the hashing-engine
call on the absent-user path and counts one hash operation; a successful
parse inside `verify_password` runs one Argon2 verification (one hash
operation), while a failed parse returns before any hashing. -/
def login_user_instr (s : Store) (username password : String) :
    Except AuthError Bool × OpTrace :=
  match validate_credentials username password with
  | .error e => (.error e, ⟨0, 0⟩)
  | .ok _ =>
    match (s.findUser username).map (fun r => r.password_hash) with
    | none => (.ok false, ⟨1, 1⟩)
    | some stored_hash =>
      match verify_password password stored_hash with
      | .error e => (.error e, ⟨0, 1⟩)
      | .ok is_valid => (.ok is_valid, ⟨1, 1⟩)

/-- From src/Siri/src/auth.rs lines 134-163: `login_user` (result only). -/
def login_user (s : Store) (username password : String) : Except AuthError Bool :=
  (login_user_instr s username password).1

/-- From src/Siri/src/auth.rs lines 102-131: `register_user`, instrumented,
with the race between the existence pre-check and the insert made explicit:
the pre-check query runs against the store `sCheck`, the `INSERT` against the
store `sInsert` (sequential, race-free execution is `sCheck = sInsert`).
The raw `conn.execute(INSERT ...)?` maps any SQLite error — the constraint
violation included — to `AuthError::Database` via `From<rusqlite::Error>`. -/
def register_user_race (salt : Nat) (sCheck sInsert : Store)
    (username password : String) : Except AuthError Unit × Store × OpTrace :=
  match validate_credentials username password with
  | .error e => (.error e, sInsert, ⟨0, 0⟩)
  | .ok _ =>
    match validate_password_strength password PasswordConfig.default with
    | .error e => (.error e, sInsert, ⟨0, 0⟩)
    | .ok _ =>
      if sCheck.userExists username then
        (.error (.Validation (msgUserExists username)), sInsert, ⟨0, 1⟩)
      else
        match sInsert.insertExec username (hash_password salt password) with
        | .error e => (.error (.Database e), sInsert, ⟨1, 2⟩)
        | .ok s2 => (.ok (), s2, ⟨1, 2⟩)

/-- From src/Siri/src/auth.rs lines 102-131: `register_user` — sequential
execution (check and insert see the same store); returns the result and the
resulting store. -/
def register_user (salt : Nat) (s : Store) (username password : String) :
    Except AuthError Unit × Store :=
  ((register_user_race salt s s username password).1,
   (register_user_race salt s s username password).2.1)

/-- From src/Siri/src/auth.rs lines 166-186: `change_password`.  A `false`
from `login_user` becomes `Validation("Senha atual incorreta")`; an error
propagates; on `true` the new password is strength-validated with the
default policy, hashed, and the row updated. -/
def change_password (salt : Nat) (s : Store)
    (username old_password new_password : String) :
    Except AuthError Unit × Store :=
  match login_user s username old_password with
  | .error e => (.error e, s)
  | .ok false => (.error (.Validation msgWrongCurrent), s)
  | .ok true =>
    match validate_password_strength new_password PasswordConfig.default with
    | .error e => (.error e, s)
    | .ok _ =>
      (.ok (), s.updateHash username (hash_password salt new_password))

/-- Is a result the `Database` error kind? -/
def resultIsDatabaseError (r : Except AuthError Bool) : Bool :=
  match r with
  | .error (.Database _) => true
  | _ => false

theorem utf8Len_ge_length (l : List Char) : l.length ≤ String.utf8Len l := by
  induction l with
  | nil => simp
  | cons c cs ih =>
    have hc := Char.utf8Size_pos c
    simp only [List.length_cons, String.utf8Len_cons]
    omega

theorem string_length_le_utf8ByteSize (s : String) : s.length ≤ s.utf8ByteSize := by
  cases s with
  | mk data => simpa [String.length] using utf8Len_ge_length data

/-- C6: `validate_password_strength` checks violations in the fixed order
length, digit, uppercase, lowercase, special and returns the first violation
found; in particular a password violating the length rule always reports the
length violation, whatever else it violates.  The special-character rule
matches only against the fixed set `specialChars`. -/
theorem validate_strength_first_violation (p : String) (cfg : PasswordConfig) :
    (p.utf8ByteSize < cfg.min_length →
      validate_password_strength p cfg
        = .error (.Validation (msgTooShort cfg.min_length))) ∧
    (¬ p.utf8ByteSize < cfg.min_length →
      (cfg.require_digit && !p.data.any (fun c => c.isDigit)) = true →
      validate_password_strength p cfg = .error (.Validation msgNeedDigit)) ∧
    (¬ p.utf8ByteSize < cfg.min_length →
      (cfg.require_digit && !p.data.any (fun c => c.isDigit)) = false →
      (cfg.require_uppercase && !p.data.any (fun c => c.isUpper)) = true →
      validate_password_strength p cfg = .error (.Validation msgNeedUppercase)) ∧
    (¬ p.utf8ByteSize < cfg.min_length →
      (cfg.require_digit && !p.data.any (fun c => c.isDigit)) = false →
      (cfg.require_uppercase && !p.data.any (fun c => c.isUpper)) = false →
      (cfg.require_lowercase && !p.data.any (fun c => c.isLower)) = true →
      validate_password_strength p cfg = .error (.Validation msgNeedLowercase)) ∧
    (¬ p.utf8ByteSize < cfg.min_length →
      (cfg.require_digit && !p.data.any (fun c => c.isDigit)) = false →
      (cfg.require_uppercase && !p.data.any (fun c => c.isUpper)) = false →
      (cfg.require_lowercase && !p.data.any (fun c => c.isLower)) = false →
      (cfg.require_special && !p.data.any (fun c => specialChars.data.contains c)) = true →
      validate_password_strength p cfg = .error (.Validation msgNeedSpecial)) ∧
    (¬ p.utf8ByteSize < cfg.min_length →
      (cfg.require_digit && !p.data.any (fun c => c.isDigit)) = false →
      (cfg.require_uppercase && !p.data.any (fun c => c.isUpper)) = false →
      (cfg.require_lowercase && !p.data.any (fun c => c.isLower)) = false →
      (cfg.require_special && !p.data.any (fun c => specialChars.data.contains c)) = false →
      validate_password_strength p cfg = .ok ()) := by
  refine ⟨?_, ?_, ?_, ?_, ?_, ?_⟩
  · intro h1
    unfold validate_password_strength
    rw [if_pos h1]
  · intro h1 h2
    unfold validate_password_strength
    rw [if_neg h1, if_pos h2]
  · intro h1 h2 h3
    unfold validate_password_strength
    rw [if_neg h1, if_neg (by simp [h2]), if_pos h3]
  · intro h1 h2 h3 h4
    unfold validate_password_strength
    rw [if_neg h1, if_neg (by simp [h2]), if_neg (by simp [h3]), if_pos h4]
  · intro h1 h2 h3 h4 h5
    unfold validate_password_strength
    rw [if_neg h1, if_neg (by simp [h2]), if_neg (by simp [h3]), if_neg (by simp [h4]),
      if_pos h5]
  · intro h1 h2 h3 h4 h5
    unfold validate_password_strength
    rw [if_neg h1, if_neg (by simp [h2]), if_neg (by simp [h3]), if_neg (by simp [h4]),
      if_neg (by simp only [h5]; decide)]

/-- C6 witness: a password violating both the length and the digit rule
reports the length violation. -/
theorem validate_strength_first_violation_w :
    validate_password_strength "abc" PasswordConfig.default
      = .error (.Validation (msgTooShort PasswordConfig.default.min_length)) :=
  (validate_strength_first_violation "abc" PasswordConfig.default).1 (by decide)

/-- C9: the default policy is minimum length 8 with only the digit
requirement enabled; every password of at least 8 bytes containing an ASCII
digit passes strength validation; and both `register_user` and
`change_password` validate the (new) password with this same default-policy
validator, propagating its violation verbatim. -/
theorem default_policy_only_digit :
    PasswordConfig.default.min_length = 8 ∧
    PasswordConfig.default.require_digit = true ∧
    PasswordConfig.default.require_uppercase = false ∧
    PasswordConfig.default.require_lowercase = false ∧
    PasswordConfig.default.require_special = false ∧
    (∀ p : String, 8 ≤ p.utf8ByteSize → p.data.any (fun c => c.isDigit) = true →
      validate_password_strength p PasswordConfig.default = .ok ()) ∧
    (∀ salt s u p e, validate_credentials u p = .ok () →
      validate_password_strength p PasswordConfig.default = .error e →
      (register_user salt s u p).1 = .error e) ∧
    (∀ salt s u old np e, login_user s u old = .ok true →
      validate_password_strength np PasswordConfig.default = .error e →
      (change_password salt s u old np).1 = .error e) := by
  refine ⟨rfl, rfl, rfl, rfl, rfl, ?_, ?_, ?_⟩
  · intro p hlen hdig
    unfold validate_password_strength
    rw [if_neg (by simp [PasswordConfig.default]; omega)]
    simp [PasswordConfig.default, hdig]
  · intro salt s u p e hcred hstr
    simp [register_user, register_user_race, hcred, hstr]
  · intro salt s u old np e hlogin hstr
    simp [change_password, hlogin, hstr]

/-- C9 witness: a digit-containing 8-byte password with no uppercase,
lowercase-only letters and no special character passes the default policy. -/
theorem default_policy_only_digit_w :
    validate_password_strength "abcdefg1" PasswordConfig.default = .ok () :=
  default_policy_only_digit.2.2.2.2.2.1 "abcdefg1" (by decide) (by decide)

/-- C10: the minimum-length check of `validate_password_strength` compares
the UTF-8 byte length: a 5-character, 9-byte password passes it (and, having
a digit, passes the whole default validation), while every password of at
least 8 characters also passes the length check. -/
theorem length_check_counts_bytes :
    (("áááá1" : String).length < 8 ∧ 8 ≤ ("áááá1" : String).utf8ByteSize ∧
      validate_password_strength "áááá1" PasswordConfig.default = .ok ()) ∧
    (∀ p : String, 8 ≤ p.length →
      ¬ p.utf8ByteSize < PasswordConfig.default.min_length) := by
  constructor
  · exact ⟨by decide, by decide, by decide⟩
  · intro p hp
    have h := string_length_le_utf8ByteSize p
    simp only [PasswordConfig.default]
    omega

/-- C10 witness: an 8-character password is never rejected by the length
check. -/
theorem length_check_counts_bytes_w :
    ¬ ("Abcdefgh" : String).utf8ByteSize < PasswordConfig.default.min_length :=
  length_check_counts_bytes.2 "Abcdefgh" (by decide)

/-- C8: with an empty username or an empty password, `validate_credentials`
fails with the corresponding `Validation` error (empty username reported
first), and both `login_user` and `register_user` return exactly that error
with zero hash computations and zero store accesses; in particular an
empty-input authenticate is an error, never `false`. -/
theorem empty_input_fails_fast (salt : Nat) (s : Store) (u p : String)
    (h : u.isEmpty = true ∨ p.isEmpty = true) :
    validate_credentials u p
      = .error (.Validation (if u.isEmpty then msgEmptyUsername else msgEmptyPassword)) ∧
    login_user_instr s u p
      = (.error (.Validation (if u.isEmpty then msgEmptyUsername else msgEmptyPassword)),
         ⟨0, 0⟩) ∧
    register_user_race salt s s u p
      = (.error (.Validation (if u.isEmpty then msgEmptyUsername else msgEmptyPassword)),
         s, ⟨0, 0⟩) := by
  cases hu : u.isEmpty with
  | true => simp [validate_credentials, login_user_instr, register_user_race, hu]
  | false =>
    have hp : p.isEmpty = true := by
      rcases h with h | h
      · rw [hu] at h; exact absurd h (by decide)
      · exact h
    simp [validate_credentials, login_user_instr, register_user_race, hu, hp]

/-- C8 witness: empty username with a non-empty password (and an arbitrary
store) fails with the empty-username `Validation` error before any store or
hash work. -/
theorem empty_input_fails_fast_w :
    validate_credentials "" "x"
      = .error (.Validation (if ("" : String).isEmpty then msgEmptyUsername
          else msgEmptyPassword)) ∧
    login_user_instr ⟨[]⟩ "" "x"
      = (.error (.Validation (if ("" : String).isEmpty then msgEmptyUsername
          else msgEmptyPassword)), ⟨0, 0⟩) ∧
    register_user_race 0 ⟨[]⟩ ⟨[]⟩ "" "x"
      = (.error (.Validation (if ("" : String).isEmpty then msgEmptyUsername
          else msgEmptyPassword)), ⟨[]⟩, ⟨0, 0⟩) :=
  empty_input_fails_fast 0 ⟨[]⟩ "" "x" (Or.inl (by decide))

/-- C4: for a non-empty username and password, an absent user makes
`login_user` run the decoy hash and return `false` with exactly one hash
computation and one store access — the same result shape and the same
operation trace as an existing user whose well-formed stored hash does not
match the password. -/
theorem login_decoy_uniform (s : Store) (u p : String)
    (hu : u.isEmpty = false) (hp : p.isEmpty = false) :
    (s.findUser u = none → login_user_instr s u p = (.ok false, ⟨1, 1⟩)) ∧
    (∀ r salt d, s.findUser u = some r → r.password_hash = .phc salt d →
      (argonDigest salt p == d) = false →
      login_user_instr s u p = (.ok false, ⟨1, 1⟩)) := by
  constructor
  · intro habs
    simp [login_user_instr, validate_credentials, hu, hp, habs]
  · intro r salt d hfind hph hwrong
    simp [login_user_instr, validate_credentials, hu, hp, hfind, hph,
      verify_password, hwrong]

/-- C4 witness: authenticating an absent user on the singleton store (one
hash computation, result `false`) — the same trace the theorem gives for the
present-user wrong-password case. -/
theorem login_decoy_uniform_w :
    login_user_instr ⟨[⟨"alice", HashStr.phc 7 (argonDigest 7 "Secret123")⟩]⟩
      "ghost" "pw" = (.ok false, ⟨1, 1⟩) :=
  (login_decoy_uniform ⟨[⟨"alice", HashStr.phc 7 (argonDigest 7 "Secret123")⟩]⟩
    "ghost" "pw" rfl rfl).1 rfl

/-- C5: for a registered username, `change_password` with an old password
that fails authentication returns `Validation("Senha atual incorreta")` and
leaves the store component unchanged, so authenticating with the original
password afterwards gives the same result as before. -/
theorem change_password_wrong_old_unchanged (salt : Nat) (s : Store)
    (u old np : String)
    (hreg : s.userExists u = true)
    (h : login_user s u old = .ok false) :
    change_password salt s u old np = (.error (.Validation msgWrongCurrent), s) ∧
    ∀ q, login_user (change_password salt s u old np).2 u q = login_user s u q := by
  have hc : change_password salt s u old np
      = (.error (.Validation msgWrongCurrent), s) := by
    simp [change_password, h]
  exact ⟨hc, fun q => by rw [hc]⟩

/-- C5 witness: a wrong old password for the registered user leaves the
change-password call failing with the wrong-current-password validation
error and the store untouched. -/
theorem change_password_wrong_old_unchanged_w :
    change_password 9 ⟨[⟨"alice", HashStr.phc 7 (argonDigest 7 "Secret123")⟩]⟩
      "alice" "wrongpw" "NewPass99"
      = (.error (.Validation msgWrongCurrent),
         ⟨[⟨"alice", HashStr.phc 7 (argonDigest 7 "Secret123")⟩]⟩) :=
  (change_password_wrong_old_unchanged 9
    ⟨[⟨"alice", HashStr.phc 7 (argonDigest 7 "Secret123")⟩]⟩
    "alice" "wrongpw" "NewPass99" (by decide) (by decide)).1

/-- C7: `change_password` runs the full authenticate path on the old password
before looking at the new password: a non-existent username (with non-empty
credentials) makes that check return `false`, and whenever it returns `false`
the result is `Validation("Senha atual incorreta")` for every new password —
no strength violation of the new password is ever reported in that case. -/
theorem change_password_old_check_precedes (salt : Nat) (s : Store)
    (u old : String) :
    (s.findUser u = none → u.isEmpty = false → old.isEmpty = false →
      login_user s u old = .ok false) ∧
    (login_user s u old = .ok false → ∀ np,
      change_password salt s u old np
        = (.error (.Validation msgWrongCurrent), s)) := by
  constructor
  · intro hnone hu hold
    simp [login_user, login_user_instr, validate_credentials, hu, hold, hnone]
  · intro h np
    simp [change_password, h]

/-- C7 witness: change-password for a non-existent user with a
policy-violating new password still reports only the wrong-current-password
error. -/
theorem change_password_old_check_precedes_w :
    change_password 0 ⟨[]⟩ "bob" "oldpw" "x"
      = (.error (.Validation msgWrongCurrent), ⟨[]⟩) :=
  (change_password_old_check_precedes 0 ⟨[]⟩ "bob" "oldpw").2
    ((change_password_old_check_precedes 0 ⟨[]⟩ "bob" "oldpw").1 rfl rfl rfl) "x"

/-- C1: when another registration wins the race between the existence
pre-check and the insert (pre-check sees the empty store, the insert runs
against a store already holding the username), `register_user`'s raw insert
maps the constraint violation to the `Database` error kind — while the
repository's own store adapter `Database.insert_user` maps the very same
conflict to the `Validation` "already exists" error. -/
theorem register_race_duplicate_database_error :
    register_user_race 0 ⟨[]⟩ ⟨[⟨"alice", hash_password 1 "Secret123"⟩]⟩
      "alice" "Secret123"
      = (.error (.Database sqlConstraintViolation),
         ⟨[⟨"alice", hash_password 1 "Secret123"⟩]⟩, ⟨1, 2⟩) ∧
    Database.insert_user ⟨[⟨"alice", hash_password 1 "Secret123"⟩]⟩
      "alice" (hash_password 0 "Secret123")
      = .error (.Validation (msgUserExists "alice")) := by
  exact ⟨by decide, by decide⟩

/-- C2 counterexample: with the stored hash for "alice" structurally
malformed, authenticating "alice" yields the `PasswordHashing` error kind,
not the `Database` error kind the claim names. -/
theorem login_malformed_not_database :
    login_user ⟨[⟨"alice", HashStr.malformed "invalid"⟩]⟩ "alice" "password1"
      = .error (.PasswordHashing "Erro ao analisar hash: invalid") ∧
    resultIsDatabaseError
      (login_user ⟨[⟨"alice", HashStr.malformed "invalid"⟩]⟩ "alice" "password1")
      = false := by
  exact ⟨by decide, by decide⟩

/-- C2 (amended): for a username stored with a structurally malformed hash,
`login_user` never returns `false`; with non-empty username and password it
surfaces the malformed hash as the `PasswordHashing` error carrying the
parse-error text. -/
theorem login_malformed_hashing_error (s : Store) (u p : String)
    (r : UserRecord) (e : String)
    (hfind : s.findUser u = some r) (hmal : r.password_hash = .malformed e) :
    login_user s u p ≠ .ok false ∧
    (u.isEmpty = false → p.isEmpty = false →
      login_user s u p = .error (.PasswordHashing ("Erro ao analisar hash: " ++ e))) := by
  constructor
  · cases hu : u.isEmpty with
    | true => simp [login_user, login_user_instr, validate_credentials, hu]
    | false =>
      cases hp : p.isEmpty with
      | true => simp [login_user, login_user_instr, validate_credentials, hu, hp]
      | false =>
        simp [login_user, login_user_instr, validate_credentials, hu, hp, hfind,
          hmal, verify_password]
  · intro hu hp
    simp [login_user, login_user_instr, validate_credentials, hu, hp, hfind,
      hmal, verify_password]

/-- C2 witness: the malformed stored hash for "alice" surfaces as the
`PasswordHashing` parse error. -/
theorem login_malformed_hashing_error_w :
    login_user ⟨[⟨"alice", HashStr.malformed "bad"⟩]⟩ "alice" "pw"
      = .error (.PasswordHashing ("Erro ao analisar hash: " ++ "bad")) :=
  (login_malformed_hashing_error ⟨[⟨"alice", HashStr.malformed "bad"⟩]⟩
    "alice" "pw" ⟨"alice", HashStr.malformed "bad"⟩ "bad" rfl rfl).2 rfl rfl

/-- C3: if the password meets the default policy and `register_user` succeeds
on a store not containing the username, then `login_user` with the same
username and password on the resulting store returns `true`. -/
theorem register_then_login (salt : Nat) (s : Store) (u p : String)
    (hpol : validate_password_strength p PasswordConfig.default = .ok ())
    (habs : s.userExists u = false)
    (hok : (register_user salt s u p).1 = .ok ()) :
    login_user (register_user salt s u p).2 u p = .ok true := by
  have hfind : s.users.find? (fun r => r.username == u) = none := by
    rcases hf : s.users.find? (fun r => r.username == u) with _ | r
    · exact hf
    · exfalso
      rw [Store.userExists, Store.findUser, hf] at habs
      exact absurd habs (by simp)
  cases hcred : validate_credentials u p with
  | error e =>
    rw [register_user, register_user_race, hcred] at hok
    exact absurd hok (by simp)
  | ok v =>
    cases v
    have hreg2 : (register_user salt s u p).2
        = ⟨s.users ++ [⟨u, hash_password salt p⟩]⟩ := by
      simp [register_user, register_user_race, hcred, hpol, habs,
        Store.insertExec, Store.userExists, Store.findUser, hfind]
    rw [hreg2, login_user, login_user_instr, hcred]
    simp [Store.findUser, List.find?_append, hfind, List.find?,
      verify_password, hash_password]

/-- C3 witness: registering "alice" with the policy-conforming password
"Secret123" on the empty store and then authenticating succeeds. -/
theorem register_then_login_w :
    login_user (register_user 7 ⟨[]⟩ "alice" "Secret123").2 "alice" "Secret123"
      = .ok true :=
  register_then_login 7 ⟨[]⟩ "alice" "Secret123" (by decide) (by decide) (by decide)
